import Mathlib

/-!
Verification of the checkout program (`after.py`): value objects
(Money, Address, LineItem, Cart, Receipt), shipping strategies,
a simple card processor, a flat-rate tax policy, and the
`CheckoutService.checkout` orchestration flow.

Money amounts are modelled as exact rationals (`ℚ`); the Python source
stores them as binary floats, but every arithmetic step of the program
(`plus`, `minus`, `times`) is a pure field operation, so we model the
amounts exactly.  Python exceptions (`ValueError`, `PaymentDeclined`)
are modelled with `Except String`, the error string carrying the
exception message.  The `_log` call prints and returns `None`; it does
not affect the returned `Receipt`, so it is omitted.
-/

namespace Checkout

/-- `Money` value object: `@dataclass(frozen=True) class Money: amount: float`. -/
structure Money where
  amount : ℚ
deriving DecidableEq, Repr

/-- `Money.plus`: `return Money(self.amount + other.amount)`. -/
def Money.plus (self other : Money) : Money :=
  ⟨self.amount + other.amount⟩

/-- `Money.minus`: `return Money(self.amount - other.amount)`. -/
def Money.minus (self other : Money) : Money :=
  ⟨self.amount - other.amount⟩

/-- `Money.times`: `return Money(self.amount * factor)`. -/
def Money.times (self : Money) (factor : ℚ) : Money :=
  ⟨self.amount * factor⟩

/-- `Address` value object (fields only; construction-time validation is
`Address.mk_checked` below, modelling `__post_init__`). -/
structure Address where
  street : String
  city : String
  state : String
  zip : String
deriving DecidableEq, Repr

/-- Constructing an `Address` runs `__post_init__`:
`if not self.zip or len(self.zip) < 5: raise ValueError("Invalid ZIP")`.
In Python `not self.zip` is true exactly for the empty string. -/
def Address.mk_checked (street city state zip : String) :
    Except String Address :=
  if zip = "" ∨ zip.length < 5 then .error "Invalid ZIP"
  else .ok ⟨street, city, state, zip⟩

/-- The `Address` invariant the validation establishes. -/
def Address.valid (a : Address) : Prop :=
  a.zip ≠ "" ∧ 5 ≤ a.zip.length

instance (a : Address) : Decidable a.valid := by
  unfold Address.valid; infer_instance

/-- `LineItem` value object; the dataclass has no `__post_init__`, so
construction accepts any quantity, including zero and negative ones. -/
structure LineItem where
  sku : String
  unit_price : Money
  quantity : ℤ
deriving DecidableEq, Repr

/-- `LineItem.extended`: `return self.unit_price.times(self.quantity)`. -/
def LineItem.extended (li : LineItem) : Money :=
  li.unit_price.times (li.quantity : ℚ)

/-- `Cart`: a tuple of line items plus an optional discount rate. -/
structure Cart where
  items : List LineItem
  discount_rate : Option ℚ := none
deriving DecidableEq, Repr

/-- `Receipt`: the final total and the shipping label. -/
structure Receipt where
  total : Money
  shipping_label : String
deriving DecidableEq, Repr

/-- `ShippingOption` protocol: `label(to: Address) -> str` and
`surcharge() -> Money`.  A value of this type is one concrete strategy. -/
structure ShippingOption where
  label : Address → String
  surcharge : Money

/-- `StandardShipping`: label `f"STD-{to.zip}"`, surcharge `Money(0.00)`. -/
def StandardShipping : ShippingOption :=
  ⟨fun dest => "STD-" ++ dest.zip, ⟨0⟩⟩

/-- `ExpressShipping`: label `f"EXP-{to.zip}"`, surcharge `Money(9.99)`. -/
def ExpressShipping : ShippingOption :=
  ⟨fun dest => "EXP-" ++ dest.zip, ⟨999/100⟩⟩

/-- Python `s.startswith(p)` for the one-character prefixes the card
processor uses: the first character of `s` is `c`. -/
def startswith1 (s : String) (c : Char) : Bool :=
  s.data.head? = some c

/-- `PaymentProcessor` protocol: `charge(card_number, amount)` either
succeeds (`None` in Python) or raises `PaymentDeclined(reason)`. -/
def PaymentProcessor : Type :=
  String → Money → Except String Unit

/-- `SimpleCardProcessor.charge`:
```
if not card_number or len(card_number) < 12: raise PaymentDeclined("Invalid card")
if not (card_number.startswith("4") or card_number.startswith("5")):
    raise PaymentDeclined("Unsupported card")
```
In Python `not card_number` is true exactly for the empty string. -/
def SimpleCardProcessor : PaymentProcessor :=
  fun card_number _amount =>
    if card_number = "" ∨ card_number.length < 12 then
      .error "Invalid card"
    else if ¬(startswith1 card_number '4' ∨ startswith1 card_number '5') then
      .error "Unsupported card"
    else
      .ok ()

/-- `TaxPolicy` protocol: `apply(pre_tax: Money) -> Money`. -/
def TaxPolicy : Type :=
  Money → Money

/-- `NewYorkTax.RATE = 0.08875`. -/
def NewYorkTax.RATE : ℚ := 8875/100000

/-- `NewYorkTax.apply`: `return pre_tax.times(1 + self.RATE)`. -/
def NewYorkTax : TaxPolicy :=
  fun pre_tax => pre_tax.times (1 + NewYorkTax.RATE)

namespace CheckoutService

/-- `CheckoutService._subtotal`:
```
total = Money(0.0)
for li in items: total = total.plus(li.extended())
return total
``` -/
def subtotal (items : List LineItem) : Money :=
  items.foldl (fun total li => total.plus li.extended) ⟨0⟩

/-- `CheckoutService._apply_discount`:
```
if not rate or rate <= 0: return amount
return amount.minus(amount.times(rate))
```
In Python `not rate` is true for `None` and for a zero rate. -/
def apply_discount (amount : Money) (rate : Option ℚ) : Money :=
  match rate with
  | none => amount
  | some r => if r = 0 ∨ r ≤ 0 then amount else amount.minus (amount.times r)

/-- `CheckoutService.checkout`, parameterised by the two collaborators the
service is constructed with (`payments`, `tax_policy`).  The `_log` call
prints and is omitted; the Receipt is built from `total` and `label`. -/
def checkout (payments : PaymentProcessor) (tax : TaxPolicy)
    (_user_id : String) (cart : Cart) (shipping : ShippingOption)
    (ship_to : Address) (card_number : String) : Except String Receipt :=
  let subtotal := subtotal cart.items
  let discounted := apply_discount subtotal cart.discount_rate
  let with_shipping := discounted.plus shipping.surcharge
  let total := tax with_shipping
  match payments card_number total with
  | .error e => .error e
  | .ok () => .ok ⟨total, shipping.label ship_to⟩

end CheckoutService

/-- The cart of the example usage / scenario A:
`[(price 12.50, qty 2), (price 5.00, qty 3)]`, discount rate `0.10`. -/
def exampleCart : Cart :=
  ⟨[⟨"SKU-1", ⟨25/2⟩, 2⟩, ⟨"SKU-2", ⟨5⟩, 3⟩], some (1/10)⟩

/-- The destination of the example usage: zip `"10001"`. -/
def exampleAddress : Address :=
  ⟨"123 Main St", "NYC", "NY", "10001"⟩

/-- The always-approving stateless authorizer stub of the idempotence
property: it charges nothing and never declines. -/
def alwaysApprove : PaymentProcessor :=
  fun _card _amount => .ok ()

/-- The pre-charge amount `checkout` computes for its authorization call:
tax applied to the discounted subtotal plus the shipping surcharge. -/
def computedTotal (tax : TaxPolicy) (cart : Cart) (shipping : ShippingOption) : Money :=
  tax ((CheckoutService.apply_discount
    (CheckoutService.subtotal cart.items) cart.discount_rate).plus
    shipping.surcharge)

theorem checkout_run_ok (pay : PaymentProcessor) (tax : TaxPolicy) (uid : String)
    (cart : Cart) (shipping : ShippingOption) (addr : Address) (card : String)
    (h : pay card (computedTotal tax cart shipping) = .ok ()) :
    CheckoutService.checkout pay tax uid cart shipping addr card =
      .ok ⟨computedTotal tax cart shipping, shipping.label addr⟩ := by
  simp only [CheckoutService.checkout]
  simp only [computedTotal] at h
  rw [h]
  rfl

theorem checkout_run_error (pay : PaymentProcessor) (tax : TaxPolicy) (uid : String)
    (cart : Cart) (shipping : ShippingOption) (addr : Address) (card : String)
    (e : String) (h : pay card (computedTotal tax cart shipping) = .error e) :
    CheckoutService.checkout pay tax uid cart shipping addr card = .error e := by
  simp only [CheckoutService.checkout]
  simp only [computedTotal] at h
  rw [h]

theorem scenarioA_computedTotal :
    computedTotal NewYorkTax exampleCart ExpressShipping = ⟨4005729/80000⟩ := by
  simp [computedTotal, CheckoutService.subtotal, CheckoutService.apply_discount,
    exampleCart, ExpressShipping, NewYorkTax, NewYorkTax.RATE,
    Money.plus, Money.minus, Money.times, LineItem.extended]
  norm_num

theorem scenarioA_checkout :
    CheckoutService.checkout SimpleCardProcessor NewYorkTax "u-123" exampleCart
      ExpressShipping exampleAddress "4111111111111111" =
      .ok ⟨⟨4005729/80000⟩, "EXP-10001"⟩ := by
  rw [checkout_run_ok SimpleCardProcessor NewYorkTax "u-123" exampleCart
    ExpressShipping exampleAddress "4111111111111111" rfl, scenarioA_computedTotal]
  rfl

theorem subtotal_foldl (items : List LineItem) (acc : Money) :
    items.foldl (fun total li => total.plus li.extended) acc =
      ⟨acc.amount + (items.map fun li => li.unit_price.amount * (li.quantity : ℚ)).sum⟩ := by
  induction items generalizing acc with
  | nil => simp
  | cons li rest ih =>
      simp only [List.foldl_cons, List.map_cons, List.sum_cons, ih]
      simp [Money.plus, LineItem.extended, Money.times]
      ring

/-- C1: for every cart, shipping option, tax policy and successful
authorization, the total on the returned Receipt equals
`tax_policy.apply(discounted_subtotal + shipping.surcharge())`:
tax is computed on (subtotal − discount + shipping), not on the
subtotal alone. -/
theorem checkout_total_taxes_discounted_plus_shipping
    (pay : PaymentProcessor) (tax : TaxPolicy) (uid : String) (cart : Cart)
    (shipping : ShippingOption) (addr : Address) (card : String) (r : Receipt)
    (h : CheckoutService.checkout pay tax uid cart shipping addr card = .ok r) :
    r.total = tax ((CheckoutService.apply_discount
        (CheckoutService.subtotal cart.items) cart.discount_rate).plus
        shipping.surcharge) := by
  simp only [CheckoutService.checkout] at h
  cases hp : pay card (tax ((CheckoutService.apply_discount
      (CheckoutService.subtotal cart.items) cart.discount_rate).plus
      shipping.surcharge)) with
  | error e => rw [hp] at h; simp at h
  | ok u =>
      cases u
      rw [hp] at h
      simp only [Except.ok.injEq] at h
      rw [← h]

/-- Witness for C1 at the example inputs of the repository. -/
theorem checkout_total_taxes_discounted_plus_shipping_witness :
    CheckoutService.checkout SimpleCardProcessor NewYorkTax "u-123" exampleCart
      ExpressShipping exampleAddress "4111111111111111" =
      .ok ⟨⟨4005729/80000⟩, "EXP-10001"⟩ ∧
    (Money.mk (4005729/80000)) = NewYorkTax ((CheckoutService.apply_discount
      (CheckoutService.subtotal exampleCart.items) exampleCart.discount_rate).plus
      ExpressShipping.surcharge) :=
  ⟨scenarioA_checkout, checkout_total_taxes_discounted_plus_shipping SimpleCardProcessor
    NewYorkTax "u-123" exampleCart ExpressShipping exampleAddress "4111111111111111"
    ⟨⟨4005729/80000⟩, "EXP-10001"⟩ scenarioA_checkout⟩

/-- C2 counterexample: on the scenario-A input the checkout total is
45.99 × 1.08875 = 50.0716125, which does not begin with the digits
50.0885 claimed by the spec (it is smaller than 50.0885). -/
theorem scenarioA_total_digits_refuted :
    CheckoutService.checkout SimpleCardProcessor NewYorkTax "u-123" exampleCart
      ExpressShipping exampleAddress "4111111111111111" =
      .ok ⟨⟨4005729/80000⟩, "EXP-10001"⟩ ∧
    (4005729/80000 : ℚ) = 4599/100 * (1 + 8875/100000) ∧
    (4005729/80000 : ℚ) < 500885/10000 := by
  refine ⟨scenarioA_checkout, by norm_num, by norm_num⟩

/-- C2 (amended): the scenario-A pipeline values are subtotal 40.00,
discounted 36.00, shipping-inclusive 45.99, total 45.99 × 1.08875
= 50.0716125, label "EXP-10001", and checkout succeeds. -/
theorem scenarioA_values :
    CheckoutService.subtotal exampleCart.items = ⟨40⟩ ∧
    CheckoutService.apply_discount ⟨40⟩ exampleCart.discount_rate = ⟨36⟩ ∧
    (Money.mk 36).plus ExpressShipping.surcharge = ⟨4599/100⟩ ∧
    NewYorkTax ⟨4599/100⟩ = ⟨4005729/80000⟩ ∧
    (4005729/80000 : ℚ) = 500716125/10000000 ∧
    CheckoutService.checkout SimpleCardProcessor NewYorkTax "u-123" exampleCart
      ExpressShipping exampleAddress "4111111111111111" =
      .ok ⟨⟨4005729/80000⟩, "EXP-10001"⟩ := by
  refine ⟨?_, ?_, ?_, ?_, by norm_num, scenarioA_checkout⟩
  · rw [CheckoutService.subtotal, subtotal_foldl]
    simp [exampleCart]
    norm_num
  · simp [CheckoutService.apply_discount, exampleCart, Money.minus, Money.times]
    norm_num
  · simp [Money.plus, ExpressShipping]
    norm_num
  · simp [NewYorkTax, NewYorkTax.RATE, Money.times]
    norm_num

/-- C3 counterexample: the decline reasons carried by the code's
PaymentDeclined are "Invalid card" and "Unsupported card", not the
claimed "invalid card" and "unsupported card network". -/
theorem charge_reason_strings_refuted :
    SimpleCardProcessor "123" ⟨1⟩ = .error "Invalid card" ∧
    "Invalid card" ≠ "invalid card" ∧
    SimpleCardProcessor "6011000000000000" ⟨1⟩ = .error "Unsupported card" ∧
    "Unsupported card" ≠ "unsupported card network" := by
  exact ⟨rfl, by decide, rfl, by decide⟩

/-- C3 (amended): for every amount, the reference processor declines with
reason "Invalid card" exactly when the card number is absent or shorter
than 12 characters, declines with reason "Unsupported card" exactly when
the length is at least 12 but the number starts with neither "4" nor "5",
and succeeds otherwise. -/
theorem charge_outcome_characterization (card : String) (amt : Money) :
    (SimpleCardProcessor card amt = .error "Invalid card" ↔ card.length < 12) ∧
    (SimpleCardProcessor card amt = .error "Unsupported card" ↔
      12 ≤ card.length ∧ ¬(startswith1 card '4' ∨ startswith1 card '5')) ∧
    (SimpleCardProcessor card amt = .ok () ↔
      12 ≤ card.length ∧ (startswith1 card '4' ∨ startswith1 card '5')) := by
  have hc : (card = "" ∨ card.length < 12) ↔ card.length < 12 := by
    constructor
    · rintro (h | h)
      · subst h; decide
      · exact h
    · exact .inr
  simp only [SimpleCardProcessor]
  by_cases h : card.length < 12
  · rw [if_pos (hc.mpr h)]
    refine ⟨⟨fun _ => h, fun _ => rfl⟩, ?_, ?_⟩ <;> simp <;> omega
  · rw [if_neg (fun hx => h (hc.mp hx))]
    by_cases h2 : startswith1 card '4' ∨ startswith1 card '5'
    · rw [if_neg (not_not_intro h2)]
      refine ⟨?_, ?_, ?_⟩ <;> simp [h2, h, Nat.le_of_not_lt h]
    · rw [if_pos h2]
      refine ⟨?_, ?_, ?_⟩ <;> simp [h2, h, Nat.le_of_not_lt h]

/-- C4: for every subtotal and every discount rate r in (0,1], the
discount step returns subtotal × (1 − r); for an absent, zero, or
negative rate it returns the subtotal unchanged. -/
theorem apply_discount_spec (amount : Money) (r : ℚ) :
    (0 < r → r ≤ 1 → CheckoutService.apply_discount amount (some r) =
      amount.times (1 - r)) ∧
    CheckoutService.apply_discount amount none = amount ∧
    (r ≤ 0 → CheckoutService.apply_discount amount (some r) = amount) := by
  refine ⟨fun h0 _h1 => ?_, rfl, fun hr => ?_⟩
  · simp only [CheckoutService.apply_discount]
    rw [if_neg (by rintro (h | h) <;> linarith)]
    simp only [Money.minus, Money.times, Money.mk.injEq]
    ring
  · simp only [CheckoutService.apply_discount]
    rw [if_pos (Or.inr hr)]

/-- Witness for C4 at rate 0.10 and subtotal 40. -/
theorem apply_discount_spec_witness :
    (0:ℚ) < 1/10 ∧ (1/10:ℚ) ≤ 1 ∧
    CheckoutService.apply_discount ⟨40⟩ (some (1/10)) =
      (Money.mk 40).times (1 - 1/10) :=
  ⟨by norm_num, by norm_num,
    (apply_discount_spec ⟨40⟩ (1/10)).1 (by norm_num) (by norm_num)⟩

/-- C5: when the authorizer declines, checkout fails with the same
PaymentDeclined error (no Receipt), and the result does not depend on the
shipping option's label function: the label is requested only after
successful authorization. -/
theorem checkout_propagates_decline (pay : PaymentProcessor) (tax : TaxPolicy)
    (uid : String) (cart : Cart) (lbl lbl' : Address → String) (surch : Money)
    (addr : Address) (card : String) (e : String)
    (h : pay card (computedTotal tax cart ⟨lbl, surch⟩) = .error e) :
    CheckoutService.checkout pay tax uid cart ⟨lbl, surch⟩ addr card = .error e ∧
    CheckoutService.checkout pay tax uid cart ⟨lbl, surch⟩ addr card =
      CheckoutService.checkout pay tax uid cart ⟨lbl', surch⟩ addr card := by
  have h' : pay card (computedTotal tax cart ⟨lbl', surch⟩) = .error e := h
  refine ⟨checkout_run_error _ _ _ _ _ _ _ _ h, ?_⟩
  rw [checkout_run_error _ _ _ _ _ _ _ _ h,
    checkout_run_error _ _ _ _ _ _ _ _ h']

/-- Witness for C5: scenario C, card "123", under two different label
functions with the Express surcharge. -/
theorem checkout_propagates_decline_witness :
    SimpleCardProcessor "123" (computedTotal NewYorkTax exampleCart
      ⟨fun dest => "EXP-" ++ dest.zip, ⟨999/100⟩⟩) = .error "Invalid card" ∧
    CheckoutService.checkout SimpleCardProcessor NewYorkTax "u-123" exampleCart
      ⟨fun dest => "EXP-" ++ dest.zip, ⟨999/100⟩⟩ exampleAddress "123" =
      .error "Invalid card" ∧
    CheckoutService.checkout SimpleCardProcessor NewYorkTax "u-123" exampleCart
      ⟨fun dest => "EXP-" ++ dest.zip, ⟨999/100⟩⟩ exampleAddress "123" =
      CheckoutService.checkout SimpleCardProcessor NewYorkTax "u-123" exampleCart
        ⟨fun _ => "OTHER-LABEL", ⟨999/100⟩⟩ exampleAddress "123" :=
  ⟨rfl,
    (checkout_propagates_decline SimpleCardProcessor NewYorkTax "u-123" exampleCart
      (fun dest => "EXP-" ++ dest.zip) (fun _ => "OTHER-LABEL") ⟨999/100⟩
      exampleAddress "123" "Invalid card" rfl).1,
    (checkout_propagates_decline SimpleCardProcessor NewYorkTax "u-123" exampleCart
      (fun dest => "EXP-" ++ dest.zip) (fun _ => "OTHER-LABEL") ⟨999/100⟩
      exampleAddress "123" "Invalid card" rfl).2⟩

/-- C6: constructing an Address fails with the validation error exactly
when the postal code is absent or shorter than 5 characters (checked at
construction, before any checkout logic), and every successfully
constructed Address satisfies the zip invariant. -/
theorem address_validation_spec (street city state zip : String) :
    (Address.mk_checked street city state zip = .error "Invalid ZIP" ↔
      zip.length < 5) ∧
    (Address.mk_checked street city state zip = .ok ⟨street, city, state, zip⟩ ↔
      5 ≤ zip.length) ∧
    (∀ a : Address, Address.mk_checked street city state zip = .ok a → a.valid) := by
  have hc : (zip = "" ∨ zip.length < 5) ↔ zip.length < 5 := by
    constructor
    · rintro (h | h)
      · subst h; decide
      · exact h
    · exact .inr
  unfold Address.mk_checked
  by_cases h : zip.length < 5
  · rw [if_pos (hc.mpr h)]
    refine ⟨⟨fun _ => h, fun _ => rfl⟩, ?_, fun a ha => by simp at ha⟩
    simp
    omega
  · rw [if_neg (fun hx => h (hc.mp hx))]
    refine ⟨?_, ?_, fun a ha => ?_⟩
    · simp
      omega
    · simp [Nat.le_of_not_lt h]
    · simp only [Except.ok.injEq] at ha
      subst ha
      refine ⟨fun hz => h ?_, Nat.le_of_not_lt h⟩
      subst hz
      decide

/-- Witness for C6 at the example address with zip "10001". -/
theorem address_validation_spec_witness :
    Address.mk_checked "123 Main St" "NYC" "NY" "10001" = .ok exampleAddress ∧
    exampleAddress.valid :=
  ⟨rfl, (address_validation_spec "123 Main St" "NYC" "NY" "10001").2.2
    exampleAddress rfl⟩

/-- C7: the subtotal of an empty cart is zero Money (not an error), and
for non-negative unit prices and quantities the subtotal equals the sum of
unit_price × quantity over the line items in cart order. -/
theorem subtotal_spec (items : List LineItem) :
    CheckoutService.subtotal [] = ⟨0⟩ ∧
    ((∀ li ∈ items, 0 ≤ li.unit_price.amount ∧ 0 ≤ li.quantity) →
      CheckoutService.subtotal items =
        ⟨(items.map fun li => li.unit_price.amount * (li.quantity : ℚ)).sum⟩) := by
  refine ⟨rfl, fun _ => ?_⟩
  simp only [CheckoutService.subtotal]
  rw [subtotal_foldl]
  simp

/-- Witness for C7 on the example cart (all prices and quantities
non-negative). -/
theorem subtotal_spec_witness :
    (∀ li ∈ exampleCart.items, 0 ≤ li.unit_price.amount ∧ 0 ≤ li.quantity) ∧
    CheckoutService.subtotal exampleCart.items =
      ⟨(exampleCart.items.map fun li =>
        li.unit_price.amount * (li.quantity : ℚ)).sum⟩ := by
  have hnn : ∀ li ∈ exampleCart.items, 0 ≤ li.unit_price.amount ∧ 0 ≤ li.quantity := by
    intro li hli
    simp only [exampleCart, List.mem_cons, List.not_mem_nil, or_false] at hli
    rcases hli with h | h <;> subst h <;> exact ⟨by norm_num, by norm_num⟩
  exact ⟨hnn, (subtotal_spec exampleCart.items).2 hnn⟩

/-- C8: with a stateless tax policy and a stateless always-approving
authorizer, two checkout calls on identical immutable inputs produce the
same Receipt value (same total and same shipping label). -/
theorem checkout_idempotent (tax : TaxPolicy) (uid : String) (cart : Cart)
    (shipping : ShippingOption) (addr : Address) (card : String) :
    ∃ r : Receipt,
      CheckoutService.checkout alwaysApprove tax uid cart shipping addr card =
        .ok r ∧
      CheckoutService.checkout alwaysApprove tax uid cart shipping addr card =
        .ok r :=
  ⟨⟨computedTotal tax cart shipping, shipping.label addr⟩,
    checkout_run_ok _ _ _ _ _ _ _ rfl, checkout_run_ok _ _ _ _ _ _ _ rfl⟩

/-- C9: the reference processor's outcome (including the decline reason)
depends only on the card number; the amount is never inspected. -/
theorem charge_ignores_amount (card : String) (a b : Money) :
    SimpleCardProcessor card a = SimpleCardProcessor card b := rfl

/-- C10: LineItem construction does not validate the quantity: any
integer quantity is accepted, the extended price is still
unit_price × quantity, a zero or negative quantity yields a non-positive
extended amount (for a non-negative price), and the item contributes
exactly its extended price to the cart subtotal. -/
theorem lineitem_unvalidated_quantity (sku : String) (price : Money) (q : ℤ)
    (items : List LineItem) :
    (LineItem.mk sku price q).extended = price.times (q : ℚ) ∧
    (q ≤ 0 → 0 ≤ price.amount →
      ((LineItem.mk sku price q).extended).amount ≤ 0) ∧
    CheckoutService.subtotal (items ++ [LineItem.mk sku price q]) =
      (CheckoutService.subtotal items).plus (LineItem.mk sku price q).extended := by
  refine ⟨rfl, fun hq hp => ?_, ?_⟩
  · simp only [LineItem.extended, Money.times]
    have hq' : (q : ℚ) ≤ 0 := by exact_mod_cast hq
    exact mul_nonpos_of_nonneg_of_nonpos hp hq'
  · simp only [CheckoutService.subtotal, List.foldl_append, List.foldl_cons,
      List.foldl_nil]

/-- Witness for C10 with price 5.00 and quantity −2. -/
theorem lineitem_unvalidated_quantity_witness :
    ((-2 : ℤ) ≤ 0) ∧ (0 ≤ (Money.mk 5).amount) ∧
    ((LineItem.mk "SKU-N" ⟨5⟩ (-2)).extended).amount ≤ 0 :=
  ⟨by norm_num, by norm_num,
    (lineitem_unvalidated_quantity "SKU-N" ⟨5⟩ (-2) []).2.1 (by norm_num)
      (by norm_num)⟩

end Checkout
